import Mathlib

/-!
Verification of the spainnews pipeline against its specification.

Shallow embedding of the Python sources under `src/`:
* `src/bot/url_tracker.py`        — URL deduplication store,
* `src/bot/published_news_tracker.py` — publication ledger,
* `src/bot/bot_posting.py`        — publication scheduler,
* `src/bot/process_ai.py`         — rewrite cache / retry engine / validation gate.

Modelling conventions:
* wall-clock instants and durations are rationals (`ℚ`), in the unit the
  corresponding Python code compares in (hours for the URL tracker, days for
  the publication ledger, minutes for the scheduler, seconds for backoff);
* the persisted JSON files become explicit state values threaded through the
  functions; `json.dump`/`json.load` round-trips are identities;
* a timestamp that Python fails to parse (`ValueError` branch) is `none`;
* `difflib.SequenceMatcher(...).ratio()` is stdlib code outside the
  repository, so similarity is an explicit function parameter
  `sim : String → String → ℚ`.
-/

namespace UrlTracker

/-- One record of `news_urls.json`: `{url, added_at}`.  `added_at = none`
models an entry whose timestamp `datetime.fromisoformat` cannot parse
(the `except (KeyError, ValueError)` branch of `cleanup_old_urls`). -/
structure UrlEntry where
  url : String
  added_at : Option ℚ
deriving DecidableEq, Repr

/-- Whether `cleanup_old_urls` keeps an entry: its timestamp parses and
`now - added_at < timedelta(hours=max_age_hours)` (source line 63). -/
def keepsEntry (now maxAge : ℚ) (e : UrlEntry) : Bool :=
  match e.added_at with
  | some t => decide (now - t < maxAge)
  | none => false

/-- `URLTracker.cleanup_old_urls` (url_tracker.py lines 41-73): filters the
store down to the fresh entries and returns
`(old_count - len(fresh_urls), fresh_urls)`. -/
def cleanup_old_urls (now maxAge : ℚ) (urls : List UrlEntry) : ℕ × List UrlEntry :=
  let fresh := urls.filter (keepsEntry now maxAge)
  (urls.length - fresh.length, fresh)

/-- `URLTracker.is_duplicate` (lines 75-87): set membership on the `url`
fields. -/
def is_duplicate (urls : List UrlEntry) (u : String) : Bool :=
  urls.any (fun e => e.url == u)

/-- `URLTracker.add_url` (lines 89-109): duplicate check, then append with
the current timestamp; returns whether the URL was newly recorded, and the
store persisted by `_save_urls`. -/
def add_url (now : ℚ) (urls : List UrlEntry) (u : String) : Bool × List UrlEntry :=
  if is_duplicate urls u then (false, urls)
  else (true, urls ++ [⟨u, some now⟩])

end UrlTracker

namespace PublishedTracker

/-- History window of `published_news_tracker.py`: `HISTORY_DAYS = 14`. -/
def HISTORY_DAYS : ℚ := 14

/-- One record of `published_news.json`.  `published_at = none` models an
entry whose timestamp fails `datetime.fromisoformat` (the
`except (ValueError, TypeError)` branch of `cleanup_old_entries`). -/
structure PublishedEntry where
  title : String
  text : String
  url : String
  published_at : Option ℚ
deriving DecidableEq, Repr

/-- Whether `cleanup_old_entries` keeps an entry: timestamp parses and
`published_at >= cutoff_date` with `cutoff_date = now - HISTORY_DAYS`
(published_news_tracker.py line 65). -/
def entryFresh (now : ℚ) (e : PublishedEntry) : Bool :=
  match e.published_at with
  | some t => decide (now - HISTORY_DAYS ≤ t)
  | none => false

/-- `cleanup_old_entries` (lines 49-75): keep the fresh entries, in order. -/
def cleanup_old_entries (now : ℚ) (l : List PublishedEntry) : List PublishedEntry :=
  l.filter (entryFresh now)

/-- `add_published_news` (lines 78-102): load, purge by age, append the new
record stamped `now`, save.  Returns the persisted store. -/
def add_published_news (now : ℚ) (store : List PublishedEntry)
    (title text url : String) : List PublishedEntry :=
  cleanup_old_entries now store ++ [⟨title, text, url, some now⟩]

/-- Result dictionary of `check_duplicate` (lines 105-147).  `matched_by` is
`none` in the no-duplicate return, which carries no such key. -/
structure DupResult where
  is_duplicate : Bool
  matched : Option PublishedEntry
  similarity_score : ℚ
  matched_by : Option String
deriving DecidableEq, Repr

/-- Per-record duplicate test of the `check_duplicate` loop: the maximum of
the title similarity and the text similarity reaches the threshold. -/
def recordMatches (sim : String → String → ℚ) (title text : String) (thr : ℚ)
    (r : PublishedEntry) : Bool :=
  decide (thr ≤ max (sim title r.title) (sim text r.text))

/-- The `for published_news in news_list` loop of `check_duplicate`
(lines 125-141), instrumented with the number of records the loop body ran
on.  Both similarities are computed for each visited record; the loop
returns from inside the body at the first record whose max similarity
reaches the threshold. -/
def checkLoop (sim : String → String → ℚ) (title text : String) (thr : ℚ) :
    List PublishedEntry → Option (PublishedEntry × ℚ × String) × ℕ
  | [] => (none, 0)
  | r :: rest =>
    let title_sim := sim title r.title
    let text_sim := sim text r.text
    let max_sim := max title_sim text_sim
    if thr ≤ max_sim then
      (some (r, max_sim, if text_sim < title_sim then "title" else "text"), 1)
    else
      let rest2 := checkLoop sim title text thr rest
      (rest2.1, rest2.2 + 1)

/-- `check_duplicate` (lines 105-147): loads the store, filters old entries
in memory, runs the scan loop.  The function never calls
`save_published_news`, so the persisted store it leaves behind is exactly
the store it loaded; the pair's second component is that persisted store. -/
def check_duplicate (sim : String → String → ℚ) (now : ℚ)
    (store : List PublishedEntry) (title text : String) (thr : ℚ) :
    DupResult × List PublishedEntry :=
  let cleaned := cleanup_old_entries now store
  match (checkLoop sim title text thr cleaned).1 with
  | some (r, s, f) => (⟨true, some r, s, some f⟩, store)
  | none => (⟨false, none, 0, none⟩, store)

end PublishedTracker

namespace BotPosting

/-- A validated news item as seen by `schedule_auto_posting`
(`result_news.json` entry): only the fields that function reads. -/
structure PostItem where
  title : String
  processed_at : ℚ
deriving DecidableEq, Repr

/-- One APScheduler job: `{id, run_date, payload}`. -/
structure Job where
  id : String
  runDate : ℚ
  payload : PostItem
deriving DecidableEq, Repr

/-- Python `str.startswith`, used on job ids (bot_posting.py line 153). -/
def pyStartsWith (s pre : String) : Bool :=
  pre.toList.isPrefixOf s.toList

/-- The reserved id prefix of the planning run: `f"auto_post_{i}"`. -/
def AUTO_POST_ID : String := "auto_post_"

/-- `interval_minutes = 120 / (len(news) + 2)` (bot_posting.py line 144). -/
def intervalMinutes (n : ℕ) : ℚ := 120 / (n + 2)

/-- The job-creation loop of `schedule_auto_posting` (lines 156-169): the
i-th item (0-based `enumerate`) gets id `auto_post_i` and
`run_date = now + timedelta(minutes=interval_minutes * (i + 1))`. -/
def planJobs (now : ℚ) (news : List PostItem) : List Job :=
  news.enum.map fun p =>
    ⟨AUTO_POST_ID ++ toString p.1, now + intervalMinutes news.length * (p.1 + 1), p.2⟩

/-- The planning block of `schedule_auto_posting` (lines 151-169, the code
the guard at line 134 only reaches with a non-empty filtered batch): every
scheduler job whose id starts with `auto_post_` is removed, then one job per
batch item is added. -/
def planOperation (now : ℚ) (news : List PostItem) (jobs : List Job) : List Job :=
  jobs.filter (fun j => !pyStartsWith j.id AUTO_POST_ID) ++ planJobs now news

/-- The freshness filter of `schedule_auto_posting` (lines 116-129): keep
items with `current_time - processed_at <= 2.5 * 60 * 60` seconds; here the
item ages are measured in minutes like the planning interval, so the bound
is `150` minutes. -/
def filterFreshNews (currentTime : ℚ) (allNews : List PostItem) : List PostItem :=
  allNews.filter (fun item => decide (currentTime - item.processed_at ≤ 150))

/-- `schedule_auto_posting` (lines 109-190) at the level of scheduler state:
filter the loaded news by age; if nothing remains, return the scheduler
untouched (the early return at line 140, before any job removal); otherwise
run the planning block. -/
def schedule_auto_posting (currentTime now : ℚ) (allNews : List PostItem)
    (jobs : List Job) : List Job :=
  let news := filterFreshNews currentTime allNews
  if news.isEmpty then jobs else planOperation now news jobs

end BotPosting

namespace ProcessAi

open BotPosting (pyStartsWith)

/-- `RUSSIAN_TEXT_THRESHOLD = 0.8` (process_ai.py line 39). -/
def RUSSIAN_TEXT_THRESHOLD : ℚ := 0.8

/-- `MAX_TELEGRAM_LENGTH = 4000` (line 40). -/
def MAX_TELEGRAM_LENGTH : ℕ := 4000

/-- `BASE_RETRY_DELAY = 5` seconds (line 50). -/
def BASE_RETRY_DELAY : ℚ := 5

/-- `MAX_RETRIES = 5` (line 51). -/
def MAX_RETRIES : ℕ := 5

/-- `MODEL_FALLBACKS` (lines 54-58). -/
def MODEL_FALLBACKS : List String :=
  ["gemini-2.5-flash", "gemini-2.0-flash", "gemini-1.5-flash-001"]

/-- Characters of a string, dropped from the front (Python slicing
`s[n:]` counts code points, as `List.drop` on `toList` does). -/
def dropChars (s : String) (n : ℕ) : String := String.mk (s.toList.drop n)

/-- Model of Python `str.strip()`: whitespace removed from both ends. -/
def pyStrip (s : String) : String :=
  String.mk (((s.toList.dropWhile Char.isWhitespace).reverse.dropWhile
    Char.isWhitespace).reverse)

/-- Model of Python `str.rstrip()`: whitespace removed from the end. -/
def pyStripRight (s : String) : String :=
  String.mk ((s.toList.reverse.dropWhile Char.isWhitespace).reverse)

/-- Scanner behind `pyWords`: `st = some acc` collects the current word
(reversed). -/
def pyWordsAux : Option (List Char) → List Char → List String
  | some acc, [] => [String.mk acc.reverse]
  | none, [] => []
  | some acc, c :: rest =>
    if c.isWhitespace then String.mk acc.reverse :: pyWordsAux none rest
    else pyWordsAux (some (c :: acc)) rest
  | none, c :: rest =>
    if c.isWhitespace then pyWordsAux none rest
    else pyWordsAux (some [c]) rest

/-- Model of Python `str.split()` with no separator: the maximal
whitespace-free runs. -/
def pyWords (l : List Char) : List String := pyWordsAux none l

/-- The `russian_chars` literal of `is_russian_text` (line 73). -/
def RUSSIAN_CHARS : String :=
  "абвгдеёжзийклмнопрстуфхцчшщъыьэюяАБВГДЕЁЖЗИЙКЛМНОПРСТУФХЦЧШЩЪЫЬЭЮЯ"

/-- Membership in the `russian_chars` set. -/
def isRussianChar (c : Char) : Bool := RUSSIAN_CHARS.toList.contains c

/-- Model of Python `str.isalpha` on the alphabets this program handles:
ASCII Latin letters and the Cyrillic letters of `RUSSIAN_CHARS`.  (Python's
predicate covers all Unicode letters; the two families modelled here are
the ones the validation logic distinguishes.) -/
def isAlphaPy (c : Char) : Bool := c.isAlpha || isRussianChar c

/-- `is_russian_text(text, threshold)` (lines 70-78): false on
blank/letterless input, else the fraction of letters that are Cyrillic must
reach the threshold, inclusively (`>=`). -/
def is_russian_text (text : String) (threshold : ℚ) : Bool :=
  if pyStrip text = "" then false
  else
    let letters := text.toList.filter isAlphaPy
    if letters.isEmpty then false
    else decide (threshold ≤ ((letters.filter isRussianChar).length : ℚ) / (letters.length : ℚ))

/-- The Telegram message layout of `is_telegram_compatible` (line 87) and
`format_news_text` (bot_posting.py line 70). -/
def formatMessage (title description link : String) : String :=
  "📰 *" ++ title ++ "*\n\n" ++ description ++ "\n\n🔗 [Ссылка на источник](" ++ link ++ ")"

/-- `is_telegram_compatible` (lines 86-88): formatted length within the
4000-character budget (Python `len` counts code points, as `String.length`
does). -/
def is_telegram_compatible (title description link : String) : Bool :=
  (formatMessage title description link).length ≤ MAX_TELEGRAM_LENGTH

/-- The boilerplate prefixes stripped by `clean_ai_response` (lines 121-125). -/
def PHRASES_TO_REMOVE : List String :=
  ["Вот краткая выжимка:", "Краткая выжимка:", "Вот краткое изложение:", "Краткое изложение:",
   "Вот перевод:", "Перевод:", "Вот заголовок:", "Заголовок:", "Вот пересказ:", "Пересказ:",
   "Вот новость:", "Новость:"]

/-- The `for p in phrases_to_remove` loop of `clean_ai_response`: each
matching prefix is cut and the remainder re-stripped, in list order. -/
def stripPhrases : List String → String → String
  | [], r => r
  | p :: ps, r =>
    stripPhrases ps (if pyStartsWith r p then pyStrip (dropChars r p.length) else r)

/-- Double-quote character (written by code point to keep the sources
plain). -/
def DQUOTE : Char := Char.ofNat 34

/-- Single-quote character. -/
def SQUOTE : Char := Char.ofNat 39

/-- Whether a string starts and ends with the given character (Python
`result.startswith(q) and result.endswith(q)`; both hold for the
one-character string `q`). -/
def wrappedIn (r : String) (q : Char) : Bool :=
  r.toList.head? == some q && r.toList.getLast? == some q

/-- `clean_ai_response` (lines 120-132): strip, cut known prefixes, then
peel one symmetric layer of quotes (`result[1:-1].strip()`). -/
def clean_ai_response (text : String) : String :=
  let result := stripPhrases PHRASES_TO_REMOVE (pyStrip text)
  if wrappedIn result DQUOTE || wrappedIn result SQUOTE then
    pyStrip (String.mk ((result.toList.drop 1).take (result.length - 2)))
  else result

/-- A word character of the regex `\w` over the modelled alphabets:
letters, digits, underscore. -/
def isWordChar (c : Char) : Bool := isAlphaPy c || c.isDigit || c == '_'

/-- Scanner state machine behind `findTags`: `st = some acc` means a `#`
was seen and `acc` holds the word characters collected so far (reversed);
a maximal non-empty run is emitted as one tag and scanning resumes at the
character that ended it. -/
def findTagsAux : Option (List Char) → List Char → List String
  | some acc, [] => if acc.isEmpty then [] else [String.mk ('#' :: acc.reverse)]
  | none, [] => []
  | some acc, c :: rest =>
    if isWordChar c then findTagsAux (some (c :: acc)) rest
    else if acc.isEmpty then
      if c = '#' then findTagsAux (some []) rest else findTagsAux none rest
    else
      String.mk ('#' :: acc.reverse)
        :: (if c = '#' then findTagsAux (some []) rest else findTagsAux none rest)
  | none, c :: rest =>
    if c = '#' then findTagsAux (some []) rest else findTagsAux none rest

/-- `re.findall(r'#\w+', text)` (lines 83, 238, 385): left-to-right,
non-overlapping maximal matches of a `#` followed by at least one word
character. -/
def findTags (l : List Char) : List String := findTagsAux none l

end ProcessAi

namespace ProcessAi

/-- Scan for the first `title[:-]` marker (the `title` letters
case-insensitive, as under `re.IGNORECASE`) and return the characters after
it, as in `re.search(r'(?:title[:\-]\s*)(.+)', text, re.IGNORECASE)`
(line 242). -/
def titleMarkerAt : List Char → Bool
  | a :: b :: c :: d :: e :: f :: _ =>
    decide ((a.toLower = 't' ∧ b.toLower = 'i' ∧ c.toLower = 't'
      ∧ d.toLower = 'l' ∧ e.toLower = 'e') ∧ (f = ':' ∨ f = '-'))
  | _ => false

def titleMarkerSplit : List Char → Option (List Char)
  | [] => none
  | c :: rest =>
    if titleMarkerAt (c :: rest) then some ((c :: rest).drop 6)
    else titleMarkerSplit rest

/-- Lines 242-244: the captured group after the marker, then
`m.group(1).split('\n')[0].strip()`.  `\s*` skips whitespace (newlines
included), `(.+)` then takes the rest of that line.  When only whitespace
follows the marker the regex group strips to the empty string, which the
caller treats exactly like no match (`if not guessed_title`), so that case
is folded into `none`. -/
def guessedTitleFromPattern (text : String) : Option String :=
  match titleMarkerSplit text.toList with
  | none => none
  | some tail =>
    let t := tail.dropWhile Char.isWhitespace
    if t.isEmpty then none
    else some (pyStrip (String.mk (t.takeWhile (fun ch => ch ≠ '\n'))))

/-- Lines 245-249: first line of the text, stripped; kept as the title
guess only when its whitespace-separated word count is between 3 and 12. -/
def firstLineGuess (text : String) : Option String :=
  let first_line := pyStrip (String.mk (text.toList.takeWhile (fun ch => ch ≠ '\n')))
  let words := pyWords first_line.toList
  if 3 ≤ words.length ∧ words.length ≤ 12 then some first_line else none

/-- The heuristic title of lines 239-249: the labeled-title pattern first,
the first-line guess second, otherwise `guessed_title or ""`. -/
def guessedTitle (text : String) : String :=
  match guessedTitleFromPattern text with
  | some g => g
  | none =>
    match firstLineGuess text with
    | some g => g
    | none => ""

/-- A rewrite result `{title_ru, summary_ru, hashtags}`. -/
structure RewriteResult where
  title_ru : String
  summary_ru : String
  hashtags : List String
deriving DecidableEq, Repr

/-- The heuristic extraction result of lines 238-255: guessed title, the
whole cleaned text as summary (`guessed_summary or text` is `text` either
way), and the `#`-tags found in the text (`found_tags or []` is
`found_tags`). -/
def heuristicResult (text : String) : RewriteResult :=
  ⟨guessedTitle text, text, findTags text.toList⟩

/-- What the program reads off a JSON object returned by `json.loads`:
the two text fields defaulted to `""` when absent, and
`hashtags = none` when the `hashtags` value is not a list
(`isinstance(hashtags, list)` fails), `some l` otherwise (absent key:
`some []`). -/
structure JDict where
  title_ru : String
  summary_ru : String
  hashtags : Option (List String)
deriving DecidableEq, Repr

/-- The opening-brace character. -/
def LBRACE : Char := Char.ofNat 123

/-- The closing-brace character. -/
def RBRACE : Char := Char.ofNat 125

/-- The `re.search(r'\{.*\}', text, re.DOTALL)` step of
`parse_json_from_text` (lines 157-173): the block from the first opening
brace to the last closing brace after it, then `candidate.strip()`. -/
def extractBraceBlock (text : String) : Option String :=
  let l := text.toList
  match l.findIdx? (fun c => c = LBRACE), l.reverse.findIdx? (fun c => c = RBRACE) with
  | some i, some jr =>
    let j := l.length - 1 - jr
    if i < j then some (pyStrip (String.mk ((l.drop i).take (j - i + 1)))) else none
  | _, _ => none

/-- `parse_json_from_text` (lines 157-173), parameterized by the stdlib
`json.loads`: `loads` returns `none` for malformed JSON, for a JSON value
that is not an object, and for the empty object (falsy, so
`if parsed and isinstance(parsed, dict)` fails on it too). -/
def parse_json_from_text (loads : String → Option JDict) (text : String) : Option JDict :=
  match extractBraceBlock text with
  | some candidate => loads candidate
  | none => none

/-- Failure classification of the retry loop (lines 272-274). -/
inductive FailKind where
  | rateLimit
  | overloaded
  | timeout
  | other
deriving DecidableEq, Repr

/-- Whether `needle` occurs as a contiguous run of `hay`. -/
def listIsInfix (needle : List Char) : List Char → Bool
  | [] => needle.isEmpty
  | c :: t => needle.isPrefixOf (c :: t) || listIsInfix needle t

/-- Python `needle in haystack` on strings. -/
def strContains (hay needle : String) : Bool :=
  listIsInfix needle.toList hay.toList

/-- ASCII model of Python `str.lower()` (the classified error strings are
ASCII). -/
def pyLower (s : String) : String := String.mk (s.toList.map Char.toLower)

/-- Lines 268-274: classify the lowercased error message; the rate-limit
check wins over overload, which wins over timeout, anything else is
unclassified. -/
def classify (e : String) : FailKind :=
  let le := pyLower e
  let overloaded := strContains le "503" || strContains le "overload"
    || strContains le "unavailable" || strContains le "overloaded"
  let rate_limit := strContains le "429" || strContains le "rate limit" || strContains le "quota"
  let timeout_err := strContains le "timeout" || strContains le "timed out"
  if rate_limit then .rateLimit
  else if overloaded then .overloaded
  else if timeout_err then .timeout
  else .other

/-- The backoff delays of lines 276-292, with the sampled jitter
(`random.uniform(0, 3)` for rate limits, `random.uniform(0, 2)`
otherwise) passed in explicitly:
rate limit `30 + attempt*10 + j`, overload `base * 2^attempt + j`,
timeout and unclassified `base * (attempt+1) + j`. -/
def computeDelay (base : ℚ) (attempt : ℕ) (k : FailKind) (jitter : ℚ) : ℚ :=
  match k with
  | .rateLimit => 30 + attempt * 10 + jitter
  | .overloaded => base * 2 ^ attempt + jitter
  | .timeout => base * (attempt + 1) + jitter
  | .other => base * (attempt + 1) + jitter

end ProcessAi

namespace ProcessAi

/-- The backend choice of line 202:
`MODEL_FALLBACKS[min(attempt, len(MODEL_FALLBACKS) - 1)]`. -/
def modelSelect (fb : List String) (attempt : ℕ) : String :=
  fb.getD (min attempt (fb.length - 1)) ""

/-- The rewrite cache `gemini_cache.json`: prompt key to accepted result.
`cache[key] = value` prepends; `cacheLookup` reads the newest binding, so
the pair behaves as the Python dict. -/
def Cache : Type := List (String × RewriteResult)

/-- Dict lookup. -/
def cacheLookup (c : Cache) (k : String) : Option RewriteResult :=
  (List.find? (fun p => p.1 == k) c).map (fun p => p.2)

/-- Dict assignment. -/
def cacheInsert (c : Cache) (k : String) (v : RewriteResult) : Cache :=
  (k, v) :: c

/-- The fixed instruction text prepended to the article in the prompt of
`gemini_request_single_json` (lines 182-192). -/
def PROMPT_HEADER : String :=
  "Ты редактор новостного Telegram-канала про жизнь в Испании.\n\n" ++
  "1) На основе следующего текста статьи создай КРАТКИЙ заголовок на русском (до 10 слов) — поле title_ru.\n" ++
  "2) Пиши в стиле Александра Невзорова, но на 60% от его стиля.\n" ++
  "3) Создай краткую выжимку на русском (5-6 предложений; разделяй на абзацы, если уместно; максимум 4000 символов) — поле summary_ru.\n" ++
  "4) Подбери 3-4 хэштега по содержанию (без пробелов, с #) — поле hashtags (массив строк).\n\n" ++
  "ВЕРНИ СТРОГО JSON ОБЪЕКТ С ПОЛЯМИ: title_ru, summary_ru, hashtags.\n" ++
  "Пример корректного ответа:\n" ++
  "\x7b\x22title_ru\x22:\x22...\x22,\x22summary_ru\x22:\x22...\x22,\x22hashtags\x22:[\x22#madrid\x22,\x22#immigration\x22]\x7d\n\n" ++
  "Текст статьи:\n\n"

/-- The assembled prompt (header plus article text, line 182-192). -/
def mkPrompt (articleText : String) : String := PROMPT_HEADER ++ articleText

/-- `cache_key = str(hash(prompt))` (line 195): a deterministic function of
the prompt alone; modelled by the prompt itself (same key for equal
prompts, distinct keys kept distinct). -/
def cacheKeyOf (articleText : String) : String := mkPrompt articleText

/-- Outcome of one attempt body after a response text arrived. -/
inductive StepOut where
  | success (r : RewriteResult) (cache : Cache)
  | failure (e : String) (cache : Cache)

/-- The heuristic branch of the attempt body (lines 236-264): build the
heuristic result, write it to the cache and save the cache — and only
after that validate it, raising `Invalid/empty parsed response from model`
(caught by the retry handler) when the title or the summary is empty. -/
def heuristicStep (key : String) (cache : Cache) (text : String) : StepOut :=
  let result := heuristicResult text
  let cache2 := cacheInsert cache key result
  if result.title_ru = "" || result.summary_ru = "" then
    .failure "Invalid/empty parsed response from model" cache2
  else .success result cache2

/-- The attempt body on a model response (lines 216-264): clean the text,
try strict JSON parsing and field validation (`title and summary and
isinstance(hashtags, list) and len(hashtags) >= 1`); an accepted structured
result is cached and returned, anything else falls through to the
heuristic branch on the same cleaned text. -/
def processResponse (loads : String → Option JDict) (key : String) (cache : Cache)
    (raw : String) : StepOut :=
  let text := clean_ai_response raw
  match parse_json_from_text loads text with
  | some d =>
    let title := pyStrip d.title_ru
    let summary := pyStrip d.summary_ru
    match d.hashtags with
    | some tags =>
      if title ≠ "" ∧ summary ≠ "" ∧ 1 ≤ tags.length then
        let result : RewriteResult := ⟨title, summary, tags⟩
        .success result (cacheInsert cache key result)
      else heuristicStep key cache text
    | none => heuristicStep key cache text
  | none => heuristicStep key cache text

/-- The terminal error of line 296. -/
def exhaustedMsg (maxRetries : ℕ) (lastError : Option String) : String :=
  "Gemini failed after " ++ toString maxRetries ++ " retries. Last error: "
    ++ lastError.getD "None"

/-- One run of the retry loop, with its observable trace. -/
structure GemRun where
  outcome : Except String RewriteResult
  cache : Cache
  models : List String
  delays : List ℚ

/-- The `for attempt in range(max_retries)` loop of
`gemini_request_single_json` (lines 200-296).  `respond a` is the external
`client.models.generate_content` call on attempt `a` (the raised exception
message, or the non-empty `response.text`); `jitter a` the
`random.uniform` sample of that attempt; `time.sleep` changes no state, so
each computed backoff delay is only recorded in the trace, as is the model
each attempt selected. -/
def geminiAttempts (fb : List String) (loads : String → Option JDict)
    (respond : ℕ → Except String String) (jitter : ℕ → ℚ) (base : ℚ)
    (maxRetries : ℕ) (key : String) :
    ℕ → ℕ → Cache → Option String → GemRun
  | 0, _, cache, lastError =>
    ⟨.error (exhaustedMsg maxRetries lastError), cache, [], []⟩
  | remaining + 1, a, cache, lastError =>
    let mdl := modelSelect fb a
    match respond a with
    | .error e =>
      let d := computeDelay base a (classify e) (jitter a)
      let rest := geminiAttempts fb loads respond jitter base maxRetries key
        remaining (a + 1) cache (some e)
      ⟨rest.outcome, rest.cache, mdl :: rest.models, d :: rest.delays⟩
    | .ok raw =>
      match processResponse loads key cache raw with
      | .success result cache2 => ⟨.ok result, cache2, [mdl], []⟩
      | .failure e cache2 =>
        let d := computeDelay base a (classify e) (jitter a)
        let rest := geminiAttempts fb loads respond jitter base maxRetries key
          remaining (a + 1) cache2 (some e)
        ⟨rest.outcome, rest.cache, mdl :: rest.models, d :: rest.delays⟩

/-- `gemini_request_single_json(article_text)` (lines 175-296): build the
prompt, return a cache hit immediately (no validation, no network), else
run the retry loop from attempt 0.  The returned `cache` is what
`save_cache` has persisted when the call ends. -/
def gemini_request_single_json (loads : String → Option JDict)
    (respond : ℕ → Except String String) (jitter : ℕ → ℚ)
    (articleText : String) (cache : Cache) : GemRun :=
  let key := cacheKeyOf articleText
  match cacheLookup cache key with
  | some r => ⟨.ok r, cache, [], []⟩
  | none =>
    geminiAttempts MODEL_FALLBACKS loads respond jitter BASE_RETRY_DELAY
      MAX_RETRIES key MAX_RETRIES 0 cache none

/-- Verdict of the per-item validation chain of `main` (lines 359-391). -/
inductive GateResult where
  | rejected (reason : String)
  | accepted (title : String) (description : String)
deriving DecidableEq, Repr

/-- Model of Python `sep.join(xs)`. -/
def pyJoin (sep : String) : List String → String
  | [] => ""
  | x :: rest =>
    match rest with
    | [] => x
    | _ :: _ => x ++ sep ++ pyJoin sep rest

/-- `re.search(r'#\w+', rewritten_text)` (line 385). -/
def hasHashtagInText (text : String) : Bool :=
  !(findTags text.toList).isEmpty

/-- The validation chain of `main` (lines 358-391), given the fields of the
AI result and the source link: each failing check rejects with its reason
code, short-circuiting; before the length check the hashtags are appended
to a summary that contains none. -/
def validateRewrite (aiTitle aiText : String) (hashtags : List String)
    (link : String) : GateResult :=
  let rewritten_title := pyStrip aiTitle
  let rewritten_text := pyStrip aiText
  if rewritten_title = "" then .rejected "empty_title"
  else if rewritten_text = "" then .rejected "empty_summary"
  else if !is_russian_text rewritten_title RUSSIAN_TEXT_THRESHOLD then
    .rejected "not_russian_title"
  else if !is_russian_text rewritten_text RUSSIAN_TEXT_THRESHOLD then
    .rejected "not_russian_text"
  else if hashtags.length < 2 then .rejected "few_hashtags"
  else
    let finalText := if hasHashtagInText rewritten_text then rewritten_text
      else pyStripRight rewritten_text ++ "\n\n" ++ pyJoin " " (hashtags.take 4)
    if !is_telegram_compatible rewritten_title finalText link then
      .rejected "telegram_limit"
    else .accepted rewritten_title finalText

end ProcessAi

/-- A concrete instantiation of the similarity parameter, used in the
closed instances below.  On every string pair those instances compare it
agrees with `difflib.SequenceMatcher(None, a, b).ratio()`: identical
(short, lowercase-stable) strings score `1.0`, and strings sharing no
characters score `0.0`. -/
def simExact : String → String → ℚ := fun a b => if a == b then 1 else 0

namespace ProcessAi

/-- A model response carrying no JSON object, no `#`-tags, no `title:`
label, and a 14-word first line (so every heuristic title guess fails):
plain text the strict parser and the heuristic extractor both leave with
an empty title. -/
def plainResponse : String := "a a a a a a a a a a a a a a"

/-- The `json.loads` parameter for runs whose responses contain no brace
block: it is never consulted there. -/
def noJson : String → Option JDict := fun _ => none

/-- A backend that answers every attempt with `plainResponse`. -/
def alwaysPlain : ℕ → Except String String := fun _ => .ok plainResponse

/-- Zero jitter samples. -/
def zeroJitter : ℕ → ℚ := fun _ => 0

/-- First rewrite call on the article text `"Noticias"` with an empty
cache. -/
def c1FirstRun : GemRun :=
  gemini_request_single_json noJson alwaysPlain zeroJitter "Noticias" []

/-- Second rewrite call with the same article text, on the cache the
first call persisted. -/
def c1SecondRun : GemRun :=
  gemini_request_single_json noJson alwaysPlain zeroJitter "Noticias" c1FirstRun.cache

end ProcessAi

/-! ## Theorems -/

/-- Counting helper: the entries a filter drops are exactly the entries the
negated filter keeps. -/
lemma length_sub_filter_length {α : Type} (p : α → Bool) (l : List α) :
    l.length - (l.filter p).length = (l.filter (fun a => !p a)).length := by
  induction l with
  | nil => simp
  | cons a t ih =>
    have hle := List.length_filter_le p t
    by_cases h : p a = true <;> simp [h] <;> omega

namespace UrlTracker

/-- Claim C7, counterexample: a record whose age is exactly `max_age`
(added at time 0, cleaned at `now = 24` with a 24-hour window) is removed
by `cleanup_old_urls`, and counted as removed — the claim says a
boundary-equal record is not yet expired and retained. -/
theorem c7_boundary_record_removed :
    cleanup_old_urls 24 24 [⟨"https://example.com/a", some 0⟩] = (1, []) := by
  norm_num [cleanup_old_urls, keepsEntry]

/-- Claim C7 as amended: `cleanup_old_urls now max_age` retains exactly the
records with `now - inserted_at < max_age` — a parseable record survives
iff its age is strictly below `max_age`, so a boundary-equal record is
expired and removed — and the returned count is the number of removed
records (records with unparsable timestamps being removed and counted as
well). -/
theorem c7_cleanup_removes_expired (now maxAge : ℚ) (urls : List UrlEntry) :
    (cleanup_old_urls now maxAge urls).2 = urls.filter (keepsEntry now maxAge)
  ∧ (∀ e t, e.added_at = some t →
      (e ∈ (cleanup_old_urls now maxAge urls).2 ↔ e ∈ urls ∧ now - t < maxAge))
  ∧ (cleanup_old_urls now maxAge urls).1
      = (urls.filter (fun e => !keepsEntry now maxAge e)).length := by
  refine ⟨rfl, ?_, ?_⟩
  · intro e t het
    simp [cleanup_old_urls, List.mem_filter, keepsEntry, het]
  · exact length_sub_filter_length (keepsEntry now maxAge) urls

/-- Instance of `c7_cleanup_removes_expired` at a concrete mixed store
(a fresh record, an expired one, a boundary-equal one, an unparsable
one). -/
theorem c7_cleanup_removes_expired_witness :
    (cleanup_old_urls 24 24 [⟨"https://a", some 23⟩, ⟨"https://b", some 0⟩,
        ⟨"https://c", some (-1)⟩, ⟨"https://d", none⟩]).2
      = [⟨"https://a", some 23⟩, ⟨"https://b", some 0⟩,
          ⟨"https://c", some (-1)⟩, ⟨"https://d", none⟩].filter (keepsEntry 24 24)
  ∧ (∀ e t, e.added_at = some t →
      (e ∈ (cleanup_old_urls 24 24 [⟨"https://a", some 23⟩, ⟨"https://b", some 0⟩,
          ⟨"https://c", some (-1)⟩, ⟨"https://d", none⟩]).2
        ↔ e ∈ [⟨"https://a", some 23⟩, ⟨"https://b", some 0⟩,
            ⟨"https://c", some (-1)⟩, ⟨"https://d", none⟩] ∧ 24 - t < 24))
  ∧ (cleanup_old_urls 24 24 [⟨"https://a", some 23⟩, ⟨"https://b", some 0⟩,
        ⟨"https://c", some (-1)⟩, ⟨"https://d", none⟩]).1
      = ([⟨"https://a", some 23⟩, ⟨"https://b", some 0⟩,
          ⟨"https://c", some (-1)⟩, ⟨"https://d", none⟩].filter
            (fun e => !keepsEntry 24 24 e)).length :=
  c7_cleanup_removes_expired 24 24 [⟨"https://a", some 23⟩, ⟨"https://b", some 0⟩,
    ⟨"https://c", some (-1)⟩, ⟨"https://d", none⟩]

/-- Claim C8: recording a URL twice from a store that does not yet hold it
returns `True` then `False`, and leaves exactly one record for that URL. -/
theorem c8_record_twice (now1 now2 : ℚ) (urls : List UrlEntry) (u : String)
    (h : is_duplicate urls u = false) :
    (add_url now1 urls u).1 = true
  ∧ (add_url now2 (add_url now1 urls u).2 u).1 = false
  ∧ ((add_url now2 (add_url now1 urls u).2 u).2.filter (fun e => e.url == u)).length = 1 := by
  have hdup2 : is_duplicate (urls ++ [⟨u, some now1⟩]) u = true := by
    simp [is_duplicate]
  have hnone : ∀ e ∈ urls, ¬ e.url = u := by
    simpa [is_duplicate, List.any_eq_false] using h
  refine ⟨by simp [add_url, h], by simp [add_url, h, hdup2], ?_⟩
  have hfil : urls.filter (fun e => e.url == u) = [] :=
    List.filter_eq_nil_iff.mpr (by intro e he; simp [hnone e he])
  simp [add_url, h, hdup2, List.filter_append, hfil]

/-- Instance of `c8_record_twice`: a fresh URL against an empty store. -/
theorem c8_record_twice_witness :
    is_duplicate [] "https://example.com/n" = false
  ∧ ((add_url 0 [] "https://example.com/n").1 = true
      ∧ (add_url 1 (add_url 0 [] "https://example.com/n").2 "https://example.com/n").1 = false
      ∧ ((add_url 1 (add_url 0 [] "https://example.com/n").2 "https://example.com/n").2.filter
          (fun e => e.url == "https://example.com/n")).length = 1) :=
  ⟨by decide, c8_record_twice 0 1 [] "https://example.com/n" (by decide)⟩

end UrlTracker

namespace PublishedTracker

/-- `check_duplicate` returns the persisted store it loaded, whatever the
scan produced. -/
lemma check_duplicate_snd (sim : String → String → ℚ) (now : ℚ)
    (store : List PublishedEntry) (title text : String) (thr : ℚ) :
    (check_duplicate sim now store title text thr).2 = store := by
  simp only [check_duplicate]
  rcases hm : (checkLoop sim title text thr (cleanup_old_entries now store)).1
    with _ | ⟨r, sc, f⟩ <;> simp [hm]

/-- The scan loop as one equation: its result is the enrichment of the
first matching record, and the number of records its body visited is the
run of non-matching records plus one more when a match was found. -/
lemma checkLoop_eq (sim : String → String → ℚ) (title text : String) (thr : ℚ) :
    ∀ l : List PublishedEntry,
      checkLoop sim title text thr l
        = ((l.find? (recordMatches sim title text thr)).map
            (fun r => (r, max (sim title r.title) (sim text r.text),
              if sim text r.text < sim title r.title then "title" else "text")),
           (l.takeWhile (fun r => !recordMatches sim title text thr r)).length
             + if (l.find? (recordMatches sim title text thr)).isSome then 1 else 0)
  | [] => by simp [checkLoop]
  | r :: rest => by
    by_cases hp : thr ≤ max (sim title r.title) (sim text r.text)
    · have hm : recordMatches sim title text thr r = true := by
        simp [recordMatches, hp]
      simp [checkLoop, hp, hm]
    · have hm : recordMatches sim title text thr r = false := by
        simp [recordMatches, hp]
      simp [checkLoop, hp, hm, checkLoop_eq sim title text thr rest]
      omega

/-- Claim C2, counterexample to "similarity is computed against every
retained record with no early exit": with two retained records whose
titles both equal the queried title, the scan body runs on only the first
of the two retained records (visited count 1, store size 2) — the loop
exits early at the first match. -/
theorem c2_early_exit_counterexample :
    (checkLoop simExact "Breaking news" "qqq"
        (0.85 : ℚ)
        (cleanup_old_entries 10
          [⟨"Breaking news", "body one", "https://u1", some 10⟩,
           ⟨"Breaking news", "body two", "https://u2", some 10⟩])).2 = 1
  ∧ (cleanup_old_entries 10
        [⟨"Breaking news", "body one", "https://u1", some 10⟩,
         ⟨"Breaking news", "body two", "https://u2", some 10⟩]).length = 2
  ∧ (check_duplicate simExact 10
        [⟨"Breaking news", "body one", "https://u1", some 10⟩,
         ⟨"Breaking news", "body two", "https://u2", some 10⟩]
        "Breaking news" "qqq" (0.85 : ℚ)).1.is_duplicate = true := by
  have hfresh : entryFresh (10 : ℚ)
      (⟨"Breaking news", "body one", "https://u1", some 10⟩ : PublishedEntry) = true ∧
      entryFresh (10 : ℚ)
      (⟨"Breaking news", "body two", "https://u2", some 10⟩ : PublishedEntry) = true := by
    refine ⟨?_, ?_⟩ <;> norm_num [entryFresh, HISTORY_DAYS]
  refine ⟨?_, ?_, ?_⟩ <;>
    norm_num [checkLoop, check_duplicate, cleanup_old_entries, hfresh.1, hfresh.2, simExact]

/-- Claim C2 as amended: both similarities are computed for each record
the scan visits and the per-record maximum decides; but the records are
scanned in order only up to the first one whose maximum score reaches the
threshold (early exit on match) — the reported record, score and field
come from that first match, the field being `title` exactly when the title
score is strictly higher — and `is_duplicate` is true iff some retained
record matches; only when no record matches does the scan visit every
retained record. -/
theorem c2_scan_characterization (sim : String → String → ℚ)
    (title text : String) (thr : ℚ) (l : List PublishedEntry)
    (now : ℚ) (store : List PublishedEntry) :
    (checkLoop sim title text thr l).1
      = (l.find? (recordMatches sim title text thr)).map
          (fun r => (r, max (sim title r.title) (sim text r.text),
            if sim text r.text < sim title r.title then "title" else "text"))
  ∧ (checkLoop sim title text thr l).2
      = (l.takeWhile (fun r => !recordMatches sim title text thr r)).length
        + (if (l.find? (recordMatches sim title text thr)).isSome then 1 else 0)
  ∧ (check_duplicate sim now store title text thr).1.is_duplicate
      = (cleanup_old_entries now store).any (recordMatches sim title text thr) := by
  refine ⟨by rw [checkLoop_eq], by rw [checkLoop_eq], ?_⟩
  simp only [check_duplicate]
  rw [checkLoop_eq]
  rcases hf : (cleanup_old_entries now store).find? (recordMatches sim title text thr)
    with _ | r
  · have hnot := List.find?_eq_none.mp hf
    simp [List.any_eq_false]
    intro x hx
    simpa using hnot x hx
  · have hmem := List.mem_of_find?_eq_some hf
    have hpred := List.find?_some hf
    simp
    exact ⟨r, hmem, hpred⟩

/-- Claim C10, counterexample: `check_duplicate` does not purge the
persisted store — after a check against a store holding a single record
older than the 14-day window (age 20 days), the persisted store still
holds that record. -/
theorem c10_check_leaves_expired_record :
    (check_duplicate simExact 20 [⟨"old title", "old body", "https://u", some 0⟩]
        "t" "x" (0.85 : ℚ)).2
      = [⟨"old title", "old body", "https://u", some 0⟩]
  ∧ HISTORY_DAYS < 20 - 0 := by
  refine ⟨check_duplicate_snd .., ?_⟩
  norm_num [HISTORY_DAYS]

/-- Claim C10 as amended: `record` purges expired entries from the
persisted store (after it completes, every persisted record is at most
`HISTORY_DAYS` old), while `check_duplicate` only filters expired entries
out of its in-memory view — its verdict is computed on the purged view,
but the persisted store is returned unchanged. -/
theorem c10_purge_on_access (sim : String → String → ℚ) (now : ℚ)
    (store : List PublishedEntry) (title text url : String) (thr : ℚ) :
    (∀ e ∈ add_published_news now store title text url,
       ∃ t, e.published_at = some t ∧ now - t ≤ HISTORY_DAYS)
  ∧ (check_duplicate sim now store title text thr).2 = store
  ∧ (check_duplicate sim now store title text thr).1
      = (check_duplicate sim now (cleanup_old_entries now store) title text thr).1 := by
  refine ⟨?_, check_duplicate_snd .., ?_⟩
  · intro e he
    rcases List.mem_append.mp he with hin | hin
    · rcases List.mem_filter.mp hin with ⟨_, hfresh⟩
      unfold entryFresh at hfresh
      rcases ht : e.published_at with _ | t
      · rw [ht] at hfresh; simp at hfresh
      · rw [ht] at hfresh
        refine ⟨t, rfl, ?_⟩
        have : now - HISTORY_DAYS ≤ t := by simpa using hfresh
        linarith
    · rcases List.mem_singleton.mp hin with rfl
      refine ⟨now, rfl, ?_⟩
      norm_num [HISTORY_DAYS]
  · simp only [check_duplicate]
    rw [show cleanup_old_entries now (cleanup_old_entries now store)
          = cleanup_old_entries now store from by
        simp [cleanup_old_entries, List.filter_filter]]
    rcases hm : (checkLoop sim title text thr (cleanup_old_entries now store)).1
      with _ | ⟨r, sc, f⟩ <;> simp [hm]

end PublishedTracker

namespace BotPosting

/-- Every id built by the planning loop carries the reserved prefix. -/
lemma autoPost_id_startsWith (s : String) :
    pyStartsWith (AUTO_POST_ID ++ s) AUTO_POST_ID = true := by
  unfold pyStartsWith
  rw [show (AUTO_POST_ID ++ s).toList = AUTO_POST_ID.toList ++ s.toList from
    String.data_append ..]
  rw [ List.isPrefixOf_iff_prefix]
  exact List.prefix_append ..

/-- Every job the planning loop creates carries the reserved prefix. -/
lemma planJobs_prefixed (now : ℚ) (news : List PostItem) :
    ∀ j ∈ planJobs now news, pyStartsWith j.id AUTO_POST_ID = true := by
  intro j hj
  rcases List.mem_map.mp hj with ⟨p, _, rfl⟩
  exact autoPost_id_startsWith (toString p.1)

/-- Removing prefixed jobs erases everything the planning loop created. -/
lemma planJobs_filter_not (now : ℚ) (news : List PostItem) :
    (planJobs now news).filter (fun j => !pyStartsWith j.id AUTO_POST_ID) = [] :=
  List.filter_eq_nil_iff.mpr
    (fun j hj => by simp [planJobs_prefixed now news j hj])

/-- Keeping prefixed jobs keeps everything the planning loop created. -/
lemma planJobs_filter_pos (now : ℚ) (news : List PostItem) :
    (planJobs now news).filter (fun j => pyStartsWith j.id AUTO_POST_ID)
      = planJobs now news :=
  List.filter_eq_self.mpr (planJobs_prefixed now news)

/-- Claim C4: the planning block is self-cleaning — after two consecutive
planning runs, the prefixed jobs are exactly those of the second run (no
job of the first run survives, and a second run on the same batch and
clock reproduces the same jobs, ids included, with no leftovers). -/
theorem c4_replan_idempotent (jobs : List Job) (b1 b2 : List PostItem)
    (now1 now2 : ℚ) :
    ((planOperation now2 b2 (planOperation now1 b1 jobs)).filter
        (fun j => pyStartsWith j.id AUTO_POST_ID) = planJobs now2 b2)
  ∧ planOperation now2 b2 (planOperation now1 b1 jobs) = planOperation now2 b2 jobs
  ∧ planOperation now1 b1 (planOperation now1 b1 jobs) = planOperation now1 b1 jobs := by
  have h2 : ∀ (nw : ℚ) (b : List PostItem),
      planOperation nw b (planOperation now1 b1 jobs) = planOperation nw b jobs := by
    intro nw b
    simp [planOperation, List.filter_append, planJobs_filter_not, List.filter_filter]
  refine ⟨?_, h2 now2 b2, h2 now1 b1⟩
  rw [h2]
  simp [planOperation, List.filter_append, planJobs_filter_pos, List.filter_filter]

/-- Claim C3: with `n` items planned in the 120-minute window, the
interval is `120 / (n + 2)` and the `i`-th job (0-based `i`, so 1-indexed
`i + 1`) fires at `now + 120 / (n + 2) * (i + 1)`; for three items the
offsets from `now` are exactly 24, 48 and 72 minutes. -/
theorem c3_schedule_offsets (now : ℚ) (news : List PostItem) (i : ℕ) (j : Job)
    (h : (planJobs now news)[i]? = some j) :
    j.runDate = now + 120 / (news.length + 2) * (i + 1)
  ∧ (∀ a b c : PostItem,
      (planJobs now [a, b, c]).map (fun jb => jb.runDate - now) = [24, 48, 72]) := by
  constructor
  · simp only [planJobs, List.getElem?_map, List.getElem?_enum] at h
    rcases hn : news[i]? with _ | item
    · rw [hn] at h
      simp at h
    · rw [hn] at h
      have hj : (⟨AUTO_POST_ID ++ toString i,
          now + intervalMinutes news.length * (i + 1), item⟩ : Job) = j := by
        simpa using h
      rw [← hj]
      simp only [intervalMinutes]
  · intro a b c
    simp [planJobs, List.enum, List.enumFrom, intervalMinutes]
    norm_num

end BotPosting

namespace BotPosting

/-- Instance of `c3_schedule_offsets`: the first of three jobs planned at
`now = 0` fires 24 minutes in. -/
theorem c3_schedule_offsets_witness :
    ((planJobs 0 [⟨"n1", 1⟩, ⟨"n2", 1⟩, ⟨"n3", 1⟩])[0]?
        = some ⟨AUTO_POST_ID ++ toString 0, 24, ⟨"n1", 1⟩⟩)
  ∧ ((Job.mk (AUTO_POST_ID ++ toString 0) 24 ⟨"n1", 1⟩).runDate
        = 0 + 120 / (([⟨"n1", 1⟩, ⟨"n2", 1⟩, ⟨"n3", 1⟩] : List PostItem).length + 2)
            * ((0 : ℕ) + 1)
      ∧ (∀ a b c : PostItem,
          (planJobs 0 [a, b, c]).map (fun jb => jb.runDate - 0) = [24, 48, 72])) := by
  have h0 : (planJobs 0 [⟨"n1", 1⟩, ⟨"n2", 1⟩, ⟨"n3", 1⟩])[0]?
      = some ⟨AUTO_POST_ID ++ toString 0, 24, ⟨"n1", 1⟩⟩ := by
    norm_num [planJobs, List.enum, List.enumFrom, intervalMinutes]
  exact ⟨h0, c3_schedule_offsets 0 [⟨"n1", 1⟩, ⟨"n2", 1⟩, ⟨"n3", 1⟩] 0
    ⟨AUTO_POST_ID ++ toString 0, 24, ⟨"n1", 1⟩⟩ h0⟩

end BotPosting

namespace ProcessAi

/-- Under a backend that fails every attempt, the retry loop tries exactly
the models `modelSelect fb a` for the consecutive attempt indices. -/
lemma geminiAttempts_zero_eq (fb : List String) (loads : String → Option JDict)
    (respond : ℕ → Except String String) (jitter : ℕ → ℚ) (base : ℚ) (mR : ℕ)
    (key : String) (a : ℕ) (cache : Cache) (le : Option String) :
    geminiAttempts fb loads respond jitter base mR key 0 a cache le
      = ⟨Except.error (exhaustedMsg mR le), cache, [], []⟩ := rfl

/-- One failing attempt: the loop records the selected model and the
classified backoff delay, then recurses at the next attempt index. -/
lemma geminiAttempts_err_step (fb : List String) (loads : String → Option JDict)
    (err : ℕ → String) (jitter : ℕ → ℚ) (base : ℚ) (mR : ℕ) (key : String)
    (r a : ℕ) (cache : Cache) (le : Option String) :
    geminiAttempts fb loads (fun n => Except.error (err n)) jitter base mR key
        (r + 1) a cache le
      = ⟨(geminiAttempts fb loads (fun n => Except.error (err n)) jitter base mR
            key r (a + 1) cache (some (err a))).outcome,
         (geminiAttempts fb loads (fun n => Except.error (err n)) jitter base mR
            key r (a + 1) cache (some (err a))).cache,
         modelSelect fb a
           :: (geminiAttempts fb loads (fun n => Except.error (err n)) jitter base mR
              key r (a + 1) cache (some (err a))).models,
         computeDelay base a (classify (err a)) (jitter a)
           :: (geminiAttempts fb loads (fun n => Except.error (err n)) jitter base mR
              key r (a + 1) cache (some (err a))).delays⟩ := rfl

lemma geminiAttempts_models_error (fb : List String) (loads : String → Option JDict)
    (err : ℕ → String) (jitter : ℕ → ℚ) (base : ℚ) (mR : ℕ) (key : String) :
    ∀ (r a : ℕ) (cache : Cache) (le : Option String),
      (geminiAttempts fb loads (fun n => Except.error (err n)) jitter base mR key
          r a cache le).models
        = (List.range' a r).map (modelSelect fb)
  | 0, a, cache, le => by
    rw [geminiAttempts_zero_eq]
    simp [List.range']
  | r + 1, a, cache, le => by
    rw [geminiAttempts_err_step]
    simp [List.range',
      geminiAttempts_models_error fb loads err jitter base mR key r (a + 1) cache
        (some (err a))]

/-- Under a backend that fails every attempt, the recorded backoff delay
of attempt `a` is `computeDelay` of the classified error at `a` with the
jitter sampled at `a`. -/
lemma geminiAttempts_delays_error (fb : List String) (loads : String → Option JDict)
    (err : ℕ → String) (jitter : ℕ → ℚ) (base : ℚ) (mR : ℕ) (key : String) :
    ∀ (r a : ℕ) (cache : Cache) (le : Option String),
      (geminiAttempts fb loads (fun n => Except.error (err n)) jitter base mR key
          r a cache le).delays
        = (List.range' a r).map (fun n => computeDelay base n (classify (err n)) (jitter n))
  | 0, a, cache, le => by
    rw [geminiAttempts_zero_eq]
    simp [List.range']
  | r + 1, a, cache, le => by
    rw [geminiAttempts_err_step]
    simp [List.range',
      geminiAttempts_delays_error fb loads err jitter base mR key r (a + 1) cache
        (some (err a))]

/-- Claim C5: attempt `a` of the retry loop uses
`fallback_list[min(a, len(fallback_list)-1)]` — the first attempt uses the
primary backend, later attempts advance down the list and pin to its last
entry; four failing attempts against a three-entry list select the
backends `[A, B, C, C]` in order. -/
theorem c5_backend_fallback_selection (fb : List String)
    (loads : String → Option JDict) (err : ℕ → String) (jitter : ℕ → ℚ)
    (key : String) (cache : Cache) (m : ℕ) :
    (geminiAttempts fb loads (fun n => Except.error (err n)) jitter BASE_RETRY_DELAY
        m key m 0 cache none).models
      = (List.range m).map (fun a => fb.getD (min a (fb.length - 1)) "")
  ∧ (geminiAttempts ["bkA", "bkB", "bkC"] loads (fun n => Except.error (err n)) jitter
        BASE_RETRY_DELAY 4 key 4 0 cache none).models = ["bkA", "bkB", "bkC", "bkC"]
  ∧ modelSelect fb 0 = fb.getD 0 "" := by
  refine ⟨?_, ?_, ?_⟩
  · rw [geminiAttempts_models_error, List.range_eq_range']
    rfl
  · rw [geminiAttempts_models_error]
    decide
  · simp [modelSelect]

/-- Claim C6: the backoff delay is decided by the failure classification —
a rate-limit failure waits `30 + 10*a` plus jitter (growing only by the
fixed additive step 10 per attempt, never multiplicatively, and staying
within the fixed band `[30 + 10a, 33 + 10a]` for the bounded jitter), an
overload failure waits `base * 2^a` plus jitter, a timeout waits
`base * (a+1)` plus jitter, an unclassified failure follows the same
linear schedule, and in a failing run the recorded delay of attempt `n` is
exactly `computeDelay` of the classified error with that attempt's
jitter sample. -/
theorem c6_backoff_schedule (a : ℕ) (jr j2 : ℚ)
    (h0 : 0 ≤ jr) (h3 : jr ≤ 3) (h4 : 0 ≤ j2) (h5 : j2 ≤ 2) :
    computeDelay BASE_RETRY_DELAY a FailKind.rateLimit jr = 30 + 10 * a + jr
  ∧ computeDelay BASE_RETRY_DELAY a FailKind.overloaded j2
      = BASE_RETRY_DELAY * 2 ^ a + j2
  ∧ computeDelay BASE_RETRY_DELAY a FailKind.timeout j2
      = BASE_RETRY_DELAY * (a + 1) + j2
  ∧ computeDelay BASE_RETRY_DELAY a FailKind.other j2
      = BASE_RETRY_DELAY * (a + 1) + j2
  ∧ computeDelay BASE_RETRY_DELAY (a + 1) FailKind.rateLimit jr
      - computeDelay BASE_RETRY_DELAY a FailKind.rateLimit jr = 10
  ∧ 30 + 10 * (a : ℚ) ≤ computeDelay BASE_RETRY_DELAY a FailKind.rateLimit jr
  ∧ computeDelay BASE_RETRY_DELAY a FailKind.rateLimit jr ≤ 33 + 10 * a
  ∧ classify "429 rate limit exceeded" = FailKind.rateLimit
  ∧ classify "503 the model is overloaded" = FailKind.overloaded
  ∧ classify "request timed out" = FailKind.timeout
  ∧ classify "no text in response from model" = FailKind.other
  ∧ (∀ (fb : List String) (loads : String → Option JDict) (err : ℕ → String)
        (jitter : ℕ → ℚ) (base : ℚ) (m key r aa : _) (cache : Cache)
        (le : Option String),
      (geminiAttempts fb loads (fun n => Except.error (err n)) jitter base m key
          r aa cache le).delays
        = (List.range' aa r).map
            (fun n => computeDelay base n (classify (err n)) (jitter n))) := by
  refine ⟨?_, ?_, ?_, ?_, ?_, ?_, ?_, ?_, ?_, ?_, ?_, ?_⟩
  · simp only [computeDelay]
    try push_cast
    try ring
  · simp only [computeDelay]
    try push_cast
    try ring
  · simp only [computeDelay]
    try push_cast
    try ring
  · simp only [computeDelay]
    try push_cast
    try ring
  · simp only [computeDelay]
    try push_cast
    try ring
  · simp only [computeDelay]
    linarith
  · simp only [computeDelay]
    linarith
  · decide
  · decide
  · decide
  · decide
  · intro fb loads err jitter base m key r aa cache le
    exact geminiAttempts_delays_error fb loads err jitter base m key r aa cache le

/-- Instance of `c6_backoff_schedule` at attempt 1 with jitter samples 2
and 1. -/
theorem c6_backoff_schedule_witness :
    ((0 : ℚ) ≤ 2 ∧ (2 : ℚ) ≤ 3 ∧ (0 : ℚ) ≤ 1 ∧ (1 : ℚ) ≤ 2)
  ∧ computeDelay BASE_RETRY_DELAY 1 FailKind.rateLimit 2 = 30 + 10 * 1 + 2
  ∧ computeDelay BASE_RETRY_DELAY 1 FailKind.overloaded 1
      = BASE_RETRY_DELAY * 2 ^ 1 + 1 :=
  ⟨⟨by norm_num, by norm_num, by norm_num, by norm_num⟩,
   by
    have h := c6_backoff_schedule 1 2 1 (by norm_num) (by norm_num) (by norm_num)
      (by norm_num)
    exact ⟨by simpa using h.1, by simpa using h.2.1⟩⟩

end ProcessAi

namespace ProcessAi

/-- Closed-form evaluation of `is_russian_text` once the letter lists are
known. -/
lemma is_russian_text_eval (text : String) (thr : ℚ) (letters rus : List Char)
    (hne : pyStrip text ≠ "") (hl : text.toList.filter isAlphaPy = letters)
    (hr : letters.filter isRussianChar = rus) (hnil : letters ≠ []) :
    is_russian_text text thr
      = decide (thr ≤ (rus.length : ℚ) / (letters.length : ℚ)) := by
  simp only [is_russian_text, hl, hr]
  rw [if_neg hne, if_neg (by simp [List.isEmpty_iff, hnil] : ¬ letters.isEmpty = true)]

/-- Claim C9: the language-ratio check passes iff the Cyrillic fraction of
the letters reaches the threshold, inclusively (with the source's guards
for blank and letterless text); the configured threshold is 0.8; it is
applied to title and body independently by the gate — a half-Cyrillic
title is rejected with reason `not_russian_title` (the spec's generic name
`not_language_title`), a half-Cyrillic body with `not_russian_text`, and a
title at exactly the 0.8 boundary passes the gate. -/
theorem c9_language_ratio_gate :
    (∀ (text : String) (thr : ℚ),
      is_russian_text text thr = true
        ↔ (pyStrip text ≠ "" ∧ text.toList.filter isAlphaPy ≠ []
            ∧ thr ≤ (((text.toList.filter isAlphaPy).filter isRussianChar).length : ℚ)
                / ((text.toList.filter isAlphaPy).length : ℚ)))
  ∧ RUSSIAN_TEXT_THRESHOLD = 0.8
  ∧ validateRewrite "Пива beer" "Пример текста о жизни" ["#es", "#news"] "https://x"
      = GateResult.rejected "not_russian_title"
  ∧ validateRewrite "Пива b" "Пример текста о жизни" ["#es", "#news"] "https://x"
      = GateResult.accepted "Пива b" "Пример текста о жизни\n\n#es #news"
  ∧ validateRewrite "Пример текста" "Пива beer" ["#es", "#news"] "https://x"
      = GateResult.rejected "not_russian_text" := by
  have t1 : is_russian_text "Пива beer" RUSSIAN_TEXT_THRESHOLD = false := by
    rw [is_russian_text_eval "Пива beer" RUSSIAN_TEXT_THRESHOLD
        ['П', 'и', 'в', 'а', 'b', 'e', 'e', 'r'] ['П', 'и', 'в', 'а']
        (by decide) (by decide) (by decide) (by decide)]
    exact decide_eq_false (by norm_num [RUSSIAN_TEXT_THRESHOLD])
  have t2 : is_russian_text "Пива b" RUSSIAN_TEXT_THRESHOLD = true := by
    rw [is_russian_text_eval "Пива b" RUSSIAN_TEXT_THRESHOLD
        ['П', 'и', 'в', 'а', 'b'] ['П', 'и', 'в', 'а']
        (by decide) (by decide) (by decide) (by decide)]
    exact decide_eq_true (by norm_num [RUSSIAN_TEXT_THRESHOLD])
  have t3 : is_russian_text "Пример текста о жизни" RUSSIAN_TEXT_THRESHOLD = true := by
    rw [is_russian_text_eval "Пример текста о жизни" RUSSIAN_TEXT_THRESHOLD
        ['П', 'р', 'и', 'м', 'е', 'р', 'т', 'е', 'к', 'с', 'т', 'а', 'о',
         'ж', 'и', 'з', 'н', 'и']
        ['П', 'р', 'и', 'м', 'е', 'р', 'т', 'е', 'к', 'с', 'т', 'а', 'о',
         'ж', 'и', 'з', 'н', 'и']
        (by decide) (by decide) (by decide) (by decide)]
    exact decide_eq_true (by norm_num [RUSSIAN_TEXT_THRESHOLD])
  have t4 : is_russian_text "Пример текста" RUSSIAN_TEXT_THRESHOLD = true := by
    rw [is_russian_text_eval "Пример текста" RUSSIAN_TEXT_THRESHOLD
        ['П', 'р', 'и', 'м', 'е', 'р', 'т', 'е', 'к', 'с', 'т', 'а']
        ['П', 'р', 'и', 'м', 'е', 'р', 'т', 'е', 'к', 'с', 'т', 'а']
        (by decide) (by decide) (by decide) (by decide)]
    exact decide_eq_true (by norm_num [RUSSIAN_TEXT_THRESHOLD])
  refine ⟨?_, rfl, ?_, ?_, ?_⟩
  · intro text thr
    simp only [is_russian_text]
    by_cases h1 : pyStrip text = ""
    · simp [h1]
    · rw [if_neg h1]
      by_cases h2 : text.toList.filter isAlphaPy = []
      · simp [h1, h2]
      · rw [if_neg (by rw [List.isEmpty_iff]; exact h2 :
            ¬ (text.toList.filter isAlphaPy).isEmpty = true)]
        simp only [decide_eq_true_eq]
        constructor
        · intro hle
          exact ⟨h1, h2, hle⟩
        · rintro ⟨_, _, hle⟩
          exact hle
  · simp only [validateRewrite]
    rw [show pyStrip "Пива beer" = "Пива beer" from by decide,
        show pyStrip "Пример текста о жизни" = "Пример текста о жизни" from by decide,
        t1]
    decide
  · simp only [validateRewrite]
    rw [show pyStrip "Пива b" = "Пива b" from by decide,
        show pyStrip "Пример текста о жизни" = "Пример текста о жизни" from by decide,
        t2, t3]
    decide
  · simp only [validateRewrite]
    rw [show pyStrip "Пример текста" = "Пример текста" from by decide,
        show pyStrip "Пива beer" = "Пива beer" from by decide,
        t4, t1]
    decide

end ProcessAi

namespace ProcessAi

set_option maxRecDepth 8000 in
/-- Claim C1: two rewrite calls with the same prompt, where the model
answers `plainResponse` every time — no JSON object, no tags, no usable
title line, so every heuristic extraction leaves an empty title.  The
first call fails all its attempts (an empty-title result is treated as a
retryable failure), yet it has written that invalid result to the cache;
the second call returns the cached result, whose title is empty.  This
contradicts the claim that only accepted results (non-empty title and
body) are cached and that every returned result has a non-empty title. -/
theorem c1_cache_stores_invalid_result :
    c1FirstRun.outcome
      = Except.error (exhaustedMsg MAX_RETRIES
          (some "Invalid/empty parsed response from model"))
  ∧ cacheLookup c1FirstRun.cache (cacheKeyOf "Noticias")
      = some ⟨"", plainResponse, []⟩
  ∧ c1SecondRun.outcome = Except.ok ⟨"", plainResponse, []⟩
  ∧ (RewriteResult.mk "" plainResponse []).title_ru = "" :=
  ⟨rfl, rfl, rfl, rfl⟩

end ProcessAi
